import Mathlib

/-!
Shallow embedding of the resumable-upload (tus) endpoint of the repository,
from src/app/api/tus/[[...path]]/route.ts, together with the pieces of the
surrounding code the claims need: the prisma `files` row defaults
(prisma/migrations/20251223081340_init/migration.sql) and the
expired-transfer cleanup (lib/cleanup.ts).

Modelling conventions:
- Bytes are natural numbers; a request body is a `List Nat`.
- The per-upload JSON side file written to `UPLOAD_DIR/<id>.json` is `Meta`
  (its `size` and `offset` fields); the raw blob file is the `blob` list;
  the prisma `files` row is `FileRecord`. The handlers create and delete
  these three artifacts together, so the store for one upload id is modelled
  as `Option Session` with the three artifacts as fields of `Session`.
- HTTP headers that are parsed with `parseInt(h || "0", 10)` are modelled as
  already-parsed `Option Nat` values, with the `|| "0"` default as `getD 0`.
- The prisma `transfer.findUnique` lookup result is passed in as an
  `Option Transfer` argument.
- A transient storage failure of `appendFileSync` during PATCH is modelled
  by the `appendOk : Bool` argument: when the body is non-empty and the
  append throws, control jumps to the catch block (500) before the JSON
  metadata is rewritten, so the stored state is unchanged.
- The 400 response for a request whose URL path carries no upload id is a
  routing guard and is outside the model; every modelled call addresses a
  concrete upload id.
-/

namespace Tus

/-- `MAX_SIZE` from route.ts line 8: `100 * 1024 * 1024 * 1024` (100GB).
It is used only in the advertised `Tus-Max-Size` response header. -/
def MAX_SIZE : Nat := 100 * 1024 * 1024 * 1024

/-- The JSON metadata side file `UPLOAD_DIR/<id>.json`: the fields the
handlers read and write (`size` = declared total length, `offset` = bytes
written so far). -/
structure Meta where
  size : Nat
  offset : Nat
deriving Repr, DecidableEq

/-- The prisma `files` row for one upload. Per the migration, the column
defaults are `upload_offset = 0` and `upload_complete = false`. -/
structure FileRecord where
  size : Nat
  uploadOffset : Nat
  uploadComplete : Bool
deriving Repr, DecidableEq

/-- The three per-upload artifacts, which the handlers create and delete
together: JSON metadata, raw blob bytes, and the prisma row. -/
structure Session where
  meta : Meta
  blob : List Nat
  file : FileRecord
deriving Repr, DecidableEq

/-- A row of the prisma `transfers` table, reduced to the fields relevant
here: its `status` column and whether `expires_at` is already in the past. -/
structure Transfer where
  status : String
  expired : Bool
deriving Repr, DecidableEq

/-- `cleanupExpiredTransfers` in lib/cleanup.ts handles an expired transfer
by deleting its physical files and then marking the row
`status := "deleted"` — the row itself stays in the database. -/
def markDeleted (t : Transfer) : Transfer :=
  { t with status := "deleted" }

/-- Outcome of the POST (create) handler. -/
inductive PostResult where
  /-- 400 "Missing transferId in metadata". -/
  | missingTransferId : PostResult
  /-- 404 "Transfer not found". -/
  | transferNotFound : PostResult
  /-- 201 with a Location for the new upload id and the Upload-Offset
  header value `String(body.byteLength)`. -/
  | created (offset : Nat) : PostResult
deriving Repr, DecidableEq

/-- Outcome of the PATCH (append) handler. -/
inductive PatchResult where
  /-- 404 "Upload not found". -/
  | notFound : PatchResult
  /-- 409 "Offset mismatch" with the Upload-Offset header carrying the
  authoritative stored offset. -/
  | offsetMismatch (authoritative : Nat) : PatchResult
  /-- 500 "Internal server error" from the catch block. -/
  | serverError : PatchResult
  /-- 204 with the Upload-Offset header carrying the new offset. -/
  | ok (newOffset : Nat) : PatchResult
deriving Repr, DecidableEq

/-- Outcome of the DELETE (cancel) handler. -/
inductive DeleteResult where
  /-- 204, returned regardless of prior existence. -/
  | noContent : DeleteResult
deriving Repr, DecidableEq

/-- POST handler (route.ts lines 57-145), for the upload id it generates.
Arguments: the `transfer.findUnique` result for the referenced transfer id,
the parsed `Upload-Length` header, the `transferId` field of the parsed
`Upload-Metadata` (`none` when absent), and the request body.

Control flow of the source: missing `transferId` gives 400; a `null`
transfer lookup gives 404; otherwise an empty blob file is created, the JSON
metadata is written with `offset: 0`, the prisma row is created (its
`upload_offset` and `upload_complete` columns take their defaults 0 and
false), and then, when the body is non-empty (creation-with-upload), the
body is appended to the blob and the JSON offset is rewritten to
`body.byteLength`. The response is 201 with
`Upload-Offset = String(body.byteLength)`. No comparison against `MAX_SIZE`
occurs anywhere in the handler, and the transfer lookup checks only
existence, not `status` or `expires_at`. -/
def POST (transfer : Option Transfer) (uploadLength : Nat)
    (transferId : Option String) (body : List Nat) :
    PostResult × Option Session :=
  match transferId with
  | none => (PostResult.missingTransferId, none)
  | some _ =>
    match transfer with
    | none => (PostResult.transferNotFound, none)
    | some _ =>
      let meta0 : Meta := { size := uploadLength, offset := 0 }
      let file0 : FileRecord :=
        { size := uploadLength, uploadOffset := 0, uploadComplete := false }
      let meta := if 0 < body.length then { meta0 with offset := body.length } else meta0
      (PostResult.created body.length,
       some { meta := meta, blob := body, file := file0 })

/-- PATCH handler (route.ts lines 148-230), for one upload id. Arguments:
the stored state for that id (`none` when `<id>.json` does not exist), the
parsed `Upload-Offset` header (`none` when absent; the source applies
`parseInt(h || "0", 10)`, i.e. a missing header is read as 0), the body, and
whether the `appendFileSync` call succeeds.

Control flow of the source: missing metadata file gives 404; a claimed
offset different from the stored `meta.offset` gives 409 carrying the stored
offset, before the body is read or anything is written; otherwise the body
is appended to the blob when non-empty (a thrown append lands in the catch
block as a 500 with nothing yet rewritten), the JSON offset is rewritten to
`meta.offset + body.byteLength`, and the prisma row is updated: when
`newOffset >= meta.size` it gets `uploadComplete = true` and both its
`uploadOffset` and `size` set to `newOffset`, otherwise only
`uploadOffset = newOffset`. The JSON `size` field is never rewritten. The
response is 204 with `Upload-Offset = String(newOffset)`. There is no check
that the session is already complete and no check against `meta.size`
before appending. -/
def PATCH (store : Option Session) (uploadOffsetHeader : Option Nat)
    (body : List Nat) (appendOk : Bool) :
    PatchResult × Option Session :=
  match store with
  | none => (PatchResult.notFound, none)
  | some s =>
    let uploadOffset := uploadOffsetHeader.getD 0
    if uploadOffset = s.meta.offset then
      if 0 < body.length ∧ appendOk = false then
        (PatchResult.serverError, some s)
      else
        let newOffset := s.meta.offset + body.length
        let file :=
          if s.meta.size ≤ newOffset then
            { s.file with size := newOffset, uploadOffset := newOffset,
                          uploadComplete := true }
          else
            { s.file with uploadOffset := newOffset }
        (PatchResult.ok newOffset,
         some { meta := { s.meta with offset := newOffset },
                blob := s.blob ++ body, file := file })
    else
      (PatchResult.offsetMismatch s.meta.offset, some s)

/-- DELETE handler (route.ts lines 278-317), for one upload id. The blob
file and the JSON metadata file are each unlinked under an `existsSync`
guard, the prisma delete has `.catch(() => \x7b\x7d)` so a missing row is
swallowed, and the response is 204 in every case: the net effect on the
store is unconditionally `none`. -/
def DELETE (_store : Option Session) : DeleteResult × Option Session :=
  (DeleteResult.noContent, none)

/-! Concrete fixtures used by counterexamples and witnesses. -/

/-- A live parent transfer (not expired, default status). -/
def transferAlive : Transfer := { status := "pending", expired := false }

/-- A parent transfer whose `expires_at` has passed. -/
def transferExpired : Transfer := { status := "pending", expired := true }

/-- A fresh session that declared 5 bytes and has received none. -/
def sessionDeclared5 : Session :=
  { meta := { size := 5, offset := 0 }, blob := [],
    file := { size := 5, uploadOffset := 0, uploadComplete := false } }

/-- A session that declared 10 bytes and has received 6. -/
def sessionAt6 : Session :=
  { meta := { size := 10, offset := 6 }, blob := [1, 2, 3, 4, 5, 6],
    file := { size := 10, uploadOffset := 6, uploadComplete := false } }

/-- A fully uploaded 5-byte session, marked complete. -/
def sessionComplete5 : Session :=
  { meta := { size := 5, offset := 5 }, blob := [1, 2, 3, 4, 5],
    file := { size := 5, uploadOffset := 5, uploadComplete := true } }

/-! Helper lemmas shared by the claim theorems. -/

/-- Unfolding of a successful POST: the session exists, its JSON offset and
blob reflect the initial body, and the prisma row keeps its column defaults
`uploadOffset = 0`, `uploadComplete = false`. -/
theorem POST_some_eq (t : Transfer) (n : Nat) (tid : String) (body : List Nat) :
    POST (some t) n (some tid) body =
      (PostResult.created body.length,
       some { meta := { size := n, offset := body.length }, blob := body,
              file := { size := n, uploadOffset := 0, uploadComplete := false } }) := by
  cases body <;> simp [POST]

/-- Unfolding of a PATCH whose claimed offset mismatches the stored one. -/
theorem PATCH_mismatch_eq (s : Session) (hdr : Option Nat) (body : List Nat)
    (ok : Bool) (h : hdr.getD 0 ≠ s.meta.offset) :
    PATCH (some s) hdr body ok =
      (PatchResult.offsetMismatch s.meta.offset, some s) := by
  simp [PATCH, h]

/-- Unfolding of a PATCH whose claimed offset matches and whose append does
not fail. -/
theorem PATCH_ok_eq (s : Session) (hdr : Option Nat) (body : List Nat)
    (ok : Bool) (h : hdr.getD 0 = s.meta.offset)
    (hup : ¬(0 < body.length ∧ ok = false)) :
    PATCH (some s) hdr body ok =
      (PatchResult.ok (s.meta.offset + body.length),
       some { meta := { s.meta with offset := s.meta.offset + body.length },
              blob := s.blob ++ body,
              file :=
                if s.meta.size ≤ s.meta.offset + body.length then
                  { s.file with size := s.meta.offset + body.length,
                                uploadOffset := s.meta.offset + body.length,
                                uploadComplete := true }
                else
                  { s.file with uploadOffset := s.meta.offset + body.length } }) := by
  simp [PATCH, h, if_neg hup]

/-- Unfolding of a PATCH whose claimed offset matches but whose append of a
non-empty body throws: the 500 path, with the stored state untouched. -/
theorem PATCH_fail_eq (s : Session) (hdr : Option Nat) (body : List Nat)
    (ok : Bool) (h : hdr.getD 0 = s.meta.offset)
    (hup : 0 < body.length ∧ ok = false) :
    PATCH (some s) hdr body ok = (PatchResult.serverError, some s) := by
  simp [PATCH, h, hup]

/-- C1: a PATCH whose claimed starting offset (the parsed Upload-Offset
header) differs from the stored offset fails with the 409 offset-mismatch
response, the response carries the authoritative stored offset, and the
stored state (offset, blob bytes, prisma row) is unchanged. -/
theorem append_offset_mismatch_rejected (s : Session) (hdr : Option Nat)
    (body : List Nat) (ok : Bool) (h : hdr.getD 0 ≠ s.meta.offset) :
    PATCH (some s) hdr body ok =
      (PatchResult.offsetMismatch s.meta.offset, some s) :=
  PATCH_mismatch_eq s hdr body ok h

/-- Witness for C1: the spec scenario, claiming offset 3 against a session
at offset 6, is rejected with the authoritative offset 6 and no change. -/
theorem append_offset_mismatch_rejected_witness :
    (some 3 : Option Nat).getD 0 ≠ sessionAt6.meta.offset ∧
    PATCH (some sessionAt6) (some 3) [7] true =
      (PatchResult.offsetMismatch 6, some sessionAt6) :=
  ⟨by decide,
   append_offset_mismatch_rejected sessionAt6 (some 3) [7] true (by decide)⟩

/-- C2 counterexample: against a session that declared 5 bytes and is at
offset 0, an append of 10 bytes at claimed offset 0 is accepted: the stored
offset becomes 10 while the JSON declared size stays 5, so currentOffset
exceeds declaredSize and no OffsetMismatch/OversizedChunk rejection
occurs. -/
theorem append_past_declared_size_accepted :
    PATCH (some sessionDeclared5) (some 0) [1, 2, 3, 4, 5, 6, 7, 8, 9, 10] true =
      (PatchResult.ok 10,
       some { meta := { size := 5, offset := 10 },
              blob := [1, 2, 3, 4, 5, 6, 7, 8, 9, 10],
              file := { size := 10, uploadOffset := 10, uploadComplete := true } }) ∧
    sessionDeclared5.meta.size < 10 :=
  ⟨by decide, by decide⟩

/-- C2 amended: the stored offset never decreases across a PATCH (the only
handler that mutates an existing upload record), and a PATCH whose claimed
offset matches and whose storage append succeeds is always accepted with
newOffset = offset + len(body), even when that exceeds the declared size:
the handler performs no size check before appending. -/
theorem append_offset_monotone_no_size_check (s : Session) (hdr : Option Nat)
    (body : List Nat) (ok : Bool) :
    (∀ t : Session, (PATCH (some s) hdr body ok).2 = some t →
      s.meta.offset ≤ t.meta.offset) ∧
    (hdr.getD 0 = s.meta.offset → ok = true →
      (PATCH (some s) hdr body ok).1 =
        PatchResult.ok (s.meta.offset + body.length)) := by
  constructor
  · intro t ht
    by_cases h : hdr.getD 0 = s.meta.offset
    · by_cases hup : 0 < body.length ∧ ok = false
      · rw [PATCH_fail_eq s hdr body ok h hup] at ht
        obtain rfl := Option.some.inj ht
        exact Nat.le_refl _
      · rw [PATCH_ok_eq s hdr body ok h hup] at ht
        obtain rfl := Option.some.inj ht
        exact Nat.le_add_right _ _
    · rw [PATCH_mismatch_eq s hdr body ok h] at ht
      obtain rfl := Option.some.inj ht
      exact Nat.le_refl _
  · intro h hok
    rw [PATCH_ok_eq s hdr body ok h (by simp [hok])]

/-- Witness for C2: monotonicity observed on the concrete oversized append,
and acceptance of a 1-byte append at matching offset 0. -/
theorem append_offset_monotone_no_size_check_witness :
    sessionDeclared5.meta.offset ≤ 10 ∧
    (PATCH (some sessionDeclared5) (some 0) [9] true).1 = PatchResult.ok 1 :=
  ⟨(append_offset_monotone_no_size_check sessionDeclared5 (some 0)
      [1, 2, 3, 4, 5, 6, 7, 8, 9, 10] true).1
      { meta := { size := 5, offset := 10 },
        blob := [1, 2, 3, 4, 5, 6, 7, 8, 9, 10],
        file := { size := 10, uploadOffset := 10, uploadComplete := true } }
      (by decide),
   (append_offset_monotone_no_size_check sessionDeclared5 (some 0) [9] true).2
      (by decide) rfl⟩

/-- C3 counterexample: a Create with declared size 0 and no initial body
yields a session whose stored offset (0) equals its declared size (0) but
whose prisma row has uploadComplete = false: the completion flag is not
true at creation, refuting both the iff and the created-complete clause. -/
theorem create_zero_size_not_complete :
    POST (some transferAlive) 0 (some "T") [] =
      (PostResult.created 0,
       some { meta := { size := 0, offset := 0 }, blob := [],
              file := { size := 0, uploadOffset := 0, uploadComplete := false } }) := by
  decide

/-- C3 amended: the completion flag is false at creation regardless of the
declared size (the prisma row is created with its column default and POST
never updates it, even for declared size 0); a PATCH never resets the flag
to false; and an accepted PATCH leaves the flag true exactly when the new
offset reaches or exceeds the JSON declared size or the flag was already
true. -/
theorem complete_set_only_by_append (s : Session) (hdr : Option Nat)
    (body : List Nat) (ok : Bool) :
    (∀ (tr : Transfer) (n : Nat) (tid : String) (b : List Nat) (u : Session),
      (POST (some tr) n (some tid) b).2 = some u →
        u.file.uploadComplete = false) ∧
    (∀ t : Session, (PATCH (some s) hdr body ok).2 = some t →
      s.file.uploadComplete = true → t.file.uploadComplete = true) ∧
    (hdr.getD 0 = s.meta.offset → ok = true →
      ∀ t : Session, (PATCH (some s) hdr body ok).2 = some t →
        (t.file.uploadComplete = true ↔
          s.meta.size ≤ s.meta.offset + body.length ∨
            s.file.uploadComplete = true)) := by
  refine ⟨?_, ?_, ?_⟩
  · intro tr n tid b u hu
    rw [POST_some_eq] at hu
    obtain rfl := Option.some.inj hu
    rfl
  · intro t ht hc
    by_cases h : hdr.getD 0 = s.meta.offset
    · by_cases hup : 0 < body.length ∧ ok = false
      · rw [PATCH_fail_eq s hdr body ok h hup] at ht
        obtain rfl := Option.some.inj ht
        exact hc
      · rw [PATCH_ok_eq s hdr body ok h hup] at ht
        obtain rfl := Option.some.inj ht
        by_cases hsz : s.meta.size ≤ s.meta.offset + body.length
        · simp [hsz]
        · simp [hsz, hc]
    · rw [PATCH_mismatch_eq s hdr body ok h] at ht
      obtain rfl := Option.some.inj ht
      exact hc
  · intro h hok t ht
    rw [PATCH_ok_eq s hdr body ok h (by simp [hok])] at ht
    obtain rfl := Option.some.inj ht
    by_cases hsz : s.meta.size ≤ s.meta.offset + body.length
    · simp [hsz]
    · simp [hsz]

/-- Witness for C3: the zero-size created session has the flag false, and a
PATCH bringing the 10-byte session from offset 6 to 10 has the flag true. -/
theorem complete_set_only_by_append_witness :
    ({ meta := { size := 0, offset := 0 }, blob := [],
       file := { size := 0, uploadOffset := 0, uploadComplete := false } } :
        Session).file.uploadComplete = false ∧
    ({ meta := { size := 10, offset := 10 },
       blob := [1, 2, 3, 4, 5, 6, 7, 8, 9, 10],
       file := { size := 10, uploadOffset := 10, uploadComplete := true } } :
        Session).file.uploadComplete = true :=
  ⟨(complete_set_only_by_append sessionAt6 (some 6) [7, 8, 9, 10] true).1
      transferAlive 0 "T" [] _ (by decide),
   ((complete_set_only_by_append sessionAt6 (some 6) [7, 8, 9, 10] true).2.2
      (by decide) rfl _ (by decide)).mpr (Or.inl (by decide))⟩

/-- C4 counterexample: a PATCH against the already-complete 5-byte session,
claiming the matching offset 5, is not rejected with any Conflict: it is
accepted with 204, appends the bytes, and advances the stored offset to 8,
past the declared size, resizing the prisma row. -/
theorem append_to_complete_session_accepted :
    PATCH (some sessionComplete5) (some 5) [9, 9, 9] true =
      (PatchResult.ok 8,
       some { meta := { size := 5, offset := 8 },
              blob := [1, 2, 3, 4, 5, 9, 9, 9],
              file := { size := 8, uploadOffset := 8, uploadComplete := true } }) := by
  decide

/-- C4 amended: the PATCH handler has no completeness precondition. Against
a complete session (stored offset equal to declared size, flag true), a
PATCH claiming the current offset whose append succeeds is accepted: the
bytes are appended, the offset advances by len(body), and the prisma row is
resized to the new offset; only a mismatching claimed offset is rejected,
with the 409 offset-mismatch, exactly as for an incomplete session. -/
theorem append_to_complete_no_conflict (s : Session) (body : List Nat)
    (_hc : s.file.uploadComplete = true) (he : s.meta.offset = s.meta.size) :
    PATCH (some s) (some s.meta.offset) body true =
      (PatchResult.ok (s.meta.offset + body.length),
       some { meta := { s.meta with offset := s.meta.offset + body.length },
              blob := s.blob ++ body,
              file := { s.file with
                          size := s.meta.offset + body.length,
                          uploadOffset := s.meta.offset + body.length,
                          uploadComplete := true } }) := by
  rw [PATCH_ok_eq s (some s.meta.offset) body true rfl (by simp)]
  have hsz : s.meta.size ≤ s.meta.offset + body.length := by omega
  rw [if_pos hsz]

/-- Witness for C4: the complete 5-byte session accepts a further 2-byte
append at claimed offset 5, reaching offset 7. -/
theorem append_to_complete_no_conflict_witness :
    (sessionComplete5.file.uploadComplete = true ∧
      sessionComplete5.meta.offset = sessionComplete5.meta.size) ∧
    PATCH (some sessionComplete5) (some sessionComplete5.meta.offset) [9, 9] true =
      (PatchResult.ok 7,
       some { meta := { size := 5, offset := 7 },
              blob := [1, 2, 3, 4, 5, 9, 9],
              file := { size := 7, uploadOffset := 7, uploadComplete := true } }) :=
  ⟨⟨rfl, rfl⟩, append_to_complete_no_conflict sessionComplete5 [9, 9] rfl rfl⟩

/-- C5 counterexample: a Create declaring MAX_SIZE + 1 bytes (over the
100GB ceiling) against a live transfer succeeds with 201: a session id is
issued and the offset record, blob, and prisma row are all created. -/
theorem create_over_ceiling_accepted :
    MAX_SIZE < 107374182401 ∧
    POST (some transferAlive) 107374182401 (some "T") [] =
      (PostResult.created 0,
       some { meta := { size := 107374182401, offset := 0 }, blob := [],
              file := { size := 107374182401, uploadOffset := 0,
                        uploadComplete := false } }) :=
  ⟨by decide, by decide⟩

/-- C5 amended: MAX_SIZE (100GB) is only advertised in the Tus-Max-Size
response header; the POST handler never compares the declared Upload-Length
against it, so creation succeeds and persists a session for any declared
size, including sizes strictly above the ceiling. -/
theorem create_ignores_ceiling (t : Transfer) (n : Nat) (tid : String)
    (body : List Nat) (_h : MAX_SIZE < n) :
    (POST (some t) n (some tid) body).1 = PostResult.created body.length ∧
    (POST (some t) n (some tid) body).2 =
      some { meta := { size := n, offset := body.length }, blob := body,
             file := { size := n, uploadOffset := 0,
                       uploadComplete := false } } := by
  rw [POST_some_eq]
  exact ⟨rfl, rfl⟩

/-- Witness for C5: creation with declared size MAX_SIZE + 1 and a 1-byte
initial payload succeeds. -/
theorem create_ignores_ceiling_witness :
    (POST (some transferAlive) (MAX_SIZE + 1) (some "T") [2]).1 =
      PostResult.created 1 ∧
    (POST (some transferAlive) (MAX_SIZE + 1) (some "T") [2]).2 =
      some { meta := { size := MAX_SIZE + 1, offset := 1 }, blob := [2],
             file := { size := MAX_SIZE + 1, uploadOffset := 0,
                       uploadComplete := false } } :=
  create_ignores_ceiling transferAlive (MAX_SIZE + 1) "T" [2] (Nat.lt_succ_self _)

/-- C6 counterexample: a creation-with-upload whose initial payload reaches
the declared size (3 bytes declared, 3 sent) responds 201 with offset 3 and
stores offset 3, but leaves the prisma row at its defaults
uploadComplete = false and uploadOffset = 0: the AppendChunk completion
logic does not run during Create. -/
theorem create_with_upload_skips_completion :
    POST (some transferAlive) 3 (some "T") [1, 2, 3] =
      (PostResult.created 3,
       some { meta := { size := 3, offset := 3 }, blob := [1, 2, 3],
              file := { size := 3, uploadOffset := 0,
                        uploadComplete := false } }) := by
  decide

/-- C6 amended: Create appends any initial payload before responding and
reports offset = len(payload) (0 when no payload) both in the response and
in the stored JSON offset record, with the payload as the stored bytes; but
the completion logic of AppendChunk does not run at creation: the prisma
row keeps uploadComplete = false and uploadOffset = 0 even when the payload
reaches the declared size, and is first marked complete by a later PATCH. -/
theorem create_with_upload_appends_only (t : Transfer) (n : Nat)
    (tid : String) (body : List Nat) :
    POST (some t) n (some tid) body =
      (PostResult.created body.length,
       some { meta := { size := n, offset := body.length }, blob := body,
              file := { size := n, uploadOffset := 0,
                        uploadComplete := false } }) :=
  POST_some_eq t n tid body

/-- C7 counterexample: a Create referencing a transfer that has expired and
that cleanup has already marked deleted (its row remains in the database)
succeeds with 201 and creates session state: no not-found error is raised
for expired transfers. -/
theorem create_accepts_expired_transfer :
    (markDeleted transferExpired).expired = true ∧
    (markDeleted transferExpired).status = "deleted" ∧
    POST (some (markDeleted transferExpired)) 4 (some "T") [] =
      (PostResult.created 0,
       some { meta := { size := 4, offset := 0 }, blob := [],
              file := { size := 4, uploadOffset := 0,
                        uploadComplete := false } }) :=
  ⟨rfl, rfl, by decide⟩

/-- C7 amended: Create fails with the 404 transfer-not-found response and
creates no session state exactly when the transfer lookup returns no row;
whenever a row exists, creation proceeds regardless of its status or
expiry — the handler checks only existence, and expired transfers keep
their rows (cleanup merely marks them deleted). -/
theorem create_checks_existence_only (n : Nat) (tid : String)
    (body : List Nat) :
    POST none n (some tid) body = (PostResult.transferNotFound, none) ∧
    (∀ t : Transfer, (POST (some t) n (some tid) body).1 =
      PostResult.created body.length) := by
  refine ⟨rfl, fun t => ?_⟩
  rw [POST_some_eq]

/-- C8: when the storage append throws during a PATCH whose claimed offset
matches and whose body is non-empty, the handler returns the 500 server
error with the stored state unchanged (the offset record is only rewritten
after a successful append), and retrying the same PATCH against that
unchanged state with the same claimed offset succeeds with
newOffset = offset + len(body). -/
theorem append_failure_leaves_state_retryable (s : Session) (hdr : Option Nat)
    (body : List Nat) (hmatch : hdr.getD 0 = s.meta.offset)
    (hbody : body ≠ []) :
    PATCH (some s) hdr body false = (PatchResult.serverError, some s) ∧
    (PATCH (some s) hdr body true).1 =
      PatchResult.ok (s.meta.offset + body.length) := by
  have hlen : 0 < body.length := List.length_pos.mpr hbody
  refine ⟨PATCH_fail_eq s hdr body false hmatch ⟨hlen, rfl⟩, ?_⟩
  rw [PATCH_ok_eq s hdr body true hmatch (by simp)]

/-- Witness for C8: a failing then retried 1-byte append at offset 6. -/
theorem append_failure_leaves_state_retryable_witness :
    ((some 6 : Option Nat).getD 0 = sessionAt6.meta.offset ∧
      ([7] : List Nat) ≠ []) ∧
    (PATCH (some sessionAt6) (some 6) [7] false =
        (PatchResult.serverError, some sessionAt6) ∧
      (PATCH (some sessionAt6) (some 6) [7] true).1 = PatchResult.ok 7) :=
  ⟨⟨rfl, by decide⟩,
   append_failure_leaves_state_retryable sessionAt6 (some 6) [7] rfl (by decide)⟩

/-- C9: Cancel deletes all three per-upload artifacts (the blob file and
the JSON offset record are unlinked under existence guards, the prisma row
delete swallows its error) and answers 204 whatever the prior state,
including an already-cancelled or never-created id (store = none); running
it again yields the identical result, so it is idempotent. -/
theorem cancel_idempotent_deletes_all (store : Option Session) :
    DELETE store = (DeleteResult.noContent, none) ∧
    DELETE (DELETE store).2 = DELETE store :=
  ⟨rfl, rfl⟩

/-- C10: a PATCH with no Upload-Offset header is parsed as claiming offset
0 (the source reads the header through parseInt with a "0" default): when
the stored offset is 0 and the append succeeds, the request is accepted and
the bytes appended; when the stored offset is non-zero, it fails with the
409 offset-mismatch carrying the stored offset and the state unchanged. -/
theorem append_missing_offset_header_claims_zero (s : Session)
    (body : List Nat) (ok : Bool) :
    (s.meta.offset = 0 → ok = true →
      (PATCH (some s) none body ok).1 = PatchResult.ok body.length ∧
      ((PATCH (some s) none body ok).2.map fun t => t.blob) =
        some (s.blob ++ body)) ∧
    (s.meta.offset ≠ 0 →
      PATCH (some s) none body ok =
        (PatchResult.offsetMismatch s.meta.offset, some s)) := by
  constructor
  · intro h0 hok
    have hm : (none : Option Nat).getD 0 = s.meta.offset := by simp [h0]
    rw [PATCH_ok_eq s none body ok hm (by simp [hok])]
    refine ⟨?_, rfl⟩
    show PatchResult.ok (s.meta.offset + body.length) = PatchResult.ok body.length
    rw [h0, Nat.zero_add]
  · intro hne
    exact PATCH_mismatch_eq s none body ok (by simpa using Ne.symm hne)

/-- Witness for C10: a header-less 2-byte append against a session at
offset 0 is accepted with the bytes stored, and against the session at
offset 6 is rejected with the authoritative offset 6. -/
theorem append_missing_offset_header_claims_zero_witness :
    ((PATCH (some sessionDeclared5) none [7, 7] true).1 = PatchResult.ok 2 ∧
      ((PATCH (some sessionDeclared5) none [7, 7] true).2.map fun t => t.blob) =
        some [7, 7]) ∧
    PATCH (some sessionAt6) none [7] false =
      (PatchResult.offsetMismatch 6, some sessionAt6) :=
  ⟨(append_missing_offset_header_claims_zero sessionDeclared5 [7, 7] true).1
      rfl rfl,
   (append_missing_offset_header_claims_zero sessionAt6 [7] false).2
      (by decide)⟩

end Tus
